import Mathlib

set_option autoImplicit false

/-
  Verification of `healthchain/clients/ehrclient.py`: the `ehr` decorator and
  the `EHRClient` class (request queue construction and batched dispatch).

  Shallow embedding conventions:
  * Python exceptions are `Except` values; a `try/except` is a `match` on them.
  * The mutable `self.request_data` list is threaded explicitly.
  * The data generator function may close over mutable state, so it is
    modelled as a state transformer `σ → Except ε (δ × σ)`.
  * External collaborators that are mere parameters to the control flow under
    verification (the `Workflow` enum membership, `find_attributes_of_type`,
    `assign_to_attribute`/`set_workflow`, `strategy.construct_request`, the
    network) are abstracted as parameters; all decisive control flow is the
    translation of `ehrclient.py` itself.
-/

namespace HealthChain

/-- A JSON value, as produced by `response.json()` and `model_dump`. -/
inductive Json where
  | null : Json
  | bool : Bool → Json
  | str : String → Json
  | num : Int → Json
  | arr : List Json → Json
  | obj : List (String × Json) → Json

/-- The empty mapping `{}` appended on any caught per-request failure. -/
def emptyMapping : Json := Json.obj []

/-- A `CDSRequest` pydantic model: named fields whose values may be `None`
(`Option.none`). Only its serialisation behaviour matters here. -/
structure CDSRequest where
  fields : List (String × Option Json)

/-- Fields surviving `model_dump(exclude_none=True)`: every field whose value
is not `None`, in order; `None`-valued fields are omitted. Modelled from the
documented semantics of pydantic's `exclude_none` (an external library). -/
def dumpedFields (r : CDSRequest) : List (String × Json) :=
  r.fields.filterMap (fun kv => kv.2.map (fun v => (kv.1, v)))

/-- `request.model_dump(exclude_none=True)` as a JSON object. -/
def model_dump_exclude_none (r : CDSRequest) : Json :=
  Json.obj (dumpedFields r)

/-- One wire-level POST issued by `client.post(url=url, json=...)`. -/
structure PostCall where
  url : String
  body : Json

/-- Environment-chosen outcome of one POST: a 2xx response with a JSON body,
a non-2xx status, a timeout, or a lower-level transport failure. -/
inductive SendOutcome where
  | success (body : Json)
  | statusError (code : Nat)
  | timeout
  | transportError

/-- Whether the outcome is one of the three failure classes. -/
def SendOutcome.isFailure : SendOutcome → Bool
  | .success _ => false
  | .statusError _ => true
  | .timeout => true
  | .transportError => true

/-- The httpx exception classes caught by `send_request`'s `except` clauses:
`HTTPStatusError` (raised by `raise_for_status` on non-2xx),
`TimeoutException`, and `RequestError`. -/
inductive HttpxError where
  | httpStatusError (code : Nat) (url : String)
  | timeoutException (url : String)
  | requestError (url : String)

/-- The `try` body for one request: `client.post` + `raise_for_status()` +
`response.json()`. A non-2xx status, timeout, or transport failure raises the
corresponding httpx exception; success yields the parsed JSON body. -/
def postAttempt (o : SendOutcome) (url : String) : Except HttpxError Json :=
  match o with
  | .success body => Except.ok body
  | .statusError code => Except.error (HttpxError.httpStatusError code url)
  | .timeout => Except.error (HttpxError.timeoutException url)
  | .transportError => Except.error (HttpxError.requestError url)

/-- One loop iteration of `send_request`: the `try/except` block. Each of the
three caught exception classes logs and appends `{}`; the function is total,
so no caught failure escapes to the caller. -/
def handleRequest (o : SendOutcome) (url : String) : Json :=
  match postAttempt o url with
  | Except.ok j => j
  | Except.error (HttpxError.httpStatusError _ _) => emptyMapping
  | Except.error (HttpxError.timeoutException _) => emptyMapping
  | Except.error (HttpxError.requestError _) => emptyMapping

/-- The result recorded for an outcome: the parsed JSON body on success, the
empty mapping on any failure. Stated from the spec's return contract, to be
related to `handleRequest` (the code's try/except). -/
def outcomeResult : SendOutcome → Json
  | .success body => body
  | .statusError _ => emptyMapping
  | .timeout => emptyMapping
  | .transportError => emptyMapping

/-- The `for request in self.request_data` loop of `send_request`, started at
queue position `k`. `net i call` is the environment's outcome for the POST
issued at position `i`. Returns the trace of wire calls and the accumulated
`json_responses`. -/
def dispatchLoop (url : String) (net : Nat → PostCall → SendOutcome) :
    Nat → List CDSRequest → List PostCall × List Json
  | _, [] => ([], [])
  | i, r :: rs =>
    let call : PostCall := ⟨url, model_dump_exclude_none r⟩
    let res : Json := handleRequest (net i call) url
    let rest := dispatchLoop url net (i + 1) rs
    (call :: rest.1, res :: rest.2)

/-- `EHRClient.send_request(url)`: POST every queued request to `url` in
order and return the collected responses. Total: every classified failure is
caught inside the loop. -/
def send_request (q : List CDSRequest) (url : String)
    (net : Nat → PostCall → SendOutcome) : List Json :=
  (dispatchLoop url net 0 q).2

/-- The wire calls `send_request` issues, in order. -/
def wireCalls (q : List CDSRequest) (url : String)
    (net : Nat → PostCall → SendOutcome) : List PostCall :=
  (dispatchLoop url net 0 q).1

/-- `EHRClient`: the bound data-generator function (stateful, fallible), the
resolved workflow, the strategy's `construct_request`, and the request queue.
Type parameters: ω workflow values, σ generator state, δ generated data,
ρ constructed requests, ε raised exceptions. -/
structure EHRClient (ω σ δ ρ ε : Type) where
  data_generator_func : σ → Except ε (δ × σ)
  workflow : ω
  construct_request : δ → ω → Except ε ρ
  request_data : List ρ

/-- `EHRClient.generate_request`: run the data generator, pass its output and
the workflow to `strategy.construct_request`, append the result to the queue.
Returns the client, the generator state, and the propagated exception if any;
the append is reached only when both calls succeed. -/
def generate_request {ω σ δ ρ ε : Type} (c : EHRClient ω σ δ ρ ε) (s : σ) :
    EHRClient ω σ δ ρ ε × σ × Option ε :=
  match c.data_generator_func s with
  | Except.error e => (c, s, some e)
  | Except.ok (data, s') =>
    match c.construct_request data c.workflow with
    | Except.error e => (c, s', some e)
    | Except.ok req =>
      ({ c with request_data := c.request_data ++ [req] }, s', none)

/-- Result of the decorator's `for _ in range(num)` generation loop. -/
structure LoopResult (ω σ δ ρ ε : Type) where
  client : EHRClient ω σ δ ρ ε
  state : σ
  error? : Option ε
  calls : Nat

/-- The decorator's `for _ in range(num): method.generate_request(...)` loop.
An exception from any iteration propagates immediately; `calls` counts the
invocations of the data generator function. -/
def generateLoop {ω σ δ ρ ε : Type} :
    Nat → EHRClient ω σ δ ρ ε → σ → LoopResult ω σ δ ρ ε
  | 0, c, s => ⟨c, s, none, 0⟩
  | n + 1, c, s =>
    match generate_request c s with
    | (c', s', some e) => ⟨c', s', some e, 1⟩
    | (c', s', none) =>
      let r := generateLoop n c' s'
      ⟨r.client, r.state, r.error?, r.calls + 1⟩

/-- Log records emitted by the `ehr` wrapper. -/
inductive LogEntry where
  | errorSetWorkflow (attr : String)
  | warnMultipleGenerators
deriving DecidableEq

/-- The caller object bound as `self`: whether `self.type in UseCaseType`
holds, the type's name (for the error message), the attribute names returned
by `find_attributes_of_type(self, CdsDataGenerator)`, the effect of
`assign_to_attribute(self, attr, "set_workflow", wf)`, the strategy's
`construct_request`, and the decorated generator function bound to `self`. -/
structure UseCaseSelf (ω σ δ ρ ε : Type) where
  typeInUseCaseType : Bool
  typeName : String
  dataGeneratorAttributes : List String
  set_workflow : String → ω → Except ε Unit
  construct_request : δ → ω → Except ε ρ
  boundFunc : σ → Except ε (δ × σ)

/-- Exceptions the `ehr` wrapper may raise: the re-raised `ValueError`
listing the valid workflow options, the `NotImplementedError` for an
unrecognised use-case type, or an exception propagated from generation. -/
inductive WrapperError (ε : Type) where
  | valueErrorInvalidWorkflow (options : List String)
  | notImplementedUseCase (typeName : String)
  | raised (e : ε)

/-- Everything observable about one wrapper invocation: the log records, the
attributes on which `set_workflow` was attempted (in order), the number of
data-generator invocations, and the returned client or raised exception. -/
structure WrapperOutcome (ω σ δ ρ ε : Type) where
  logs : List LogEntry
  attemptedAttributes : List String
  generatorCalls : Nat
  result : Except (WrapperError ε) (EHRClient ω σ δ ρ ε × σ)

/-- The wrapper's data-generator configuration loop
(`for i in range(len(data_generator_attributes))`), started at index `k`:
each attribute gets a `try: assign_to_attribute ... except: log.error`, and
`if i > 1:` logs the "More than one DataGenerator instances found." warning.
Returns the attempted attributes and the log records, in order. -/
def configGenerators {ω ε : Type} (setw : String → ω → Except ε Unit) (wf : ω) :
    Nat → List String → List String × List LogEntry
  | _, [] => ([], [])
  | i, attr :: rest =>
    let errLogs : List LogEntry :=
      match setw attr wf with
      | Except.ok _ => []
      | Except.error _ => [LogEntry.errorSetWorkflow attr]
    let warnLogs : List LogEntry :=
      if i > 1 then [LogEntry.warnMultipleGenerators] else []
    let next := configGenerators setw wf (i + 1) rest
    (attr :: next.1, errLogs ++ warnLogs ++ next.2)

/-- The `wrapper` closure produced by the `ehr` decorator, translated
line by line: resolve `Workflow(workflow)` (re-raising `ValueError` with the
option list on failure), run the data-generator configuration loop, then —
if `self.type in UseCaseType` — build a fresh `EHRClient` with an empty queue
and call `generate_request` `num` times, else raise `NotImplementedError`.
`parse` is the `Workflow` enum lookup and `options` its value list (the enum
lives outside this file's sources, so both are parameters). -/
def ehr_wrapper {ω σ δ ρ ε : Type} (parse : String → Option ω)
    (options : List String) (self : UseCaseSelf ω σ δ ρ ε)
    (workflow : String) (num : Nat) (s : σ) : WrapperOutcome ω σ δ ρ ε :=
  match parse workflow with
  | none => ⟨[], [], 0, Except.error (WrapperError.valueErrorInvalidWorkflow options)⟩
  | some wfEnum =>
    let cfg := configGenerators self.set_workflow wfEnum 0 self.dataGeneratorAttributes
    if self.typeInUseCaseType then
      let client0 : EHRClient ω σ δ ρ ε :=
        ⟨self.boundFunc, wfEnum, self.construct_request, []⟩
      let r := generateLoop num client0 s
      match r.error? with
      | some e => ⟨cfg.2, cfg.1, r.calls, Except.error (WrapperError.raised e)⟩
      | none => ⟨cfg.2, cfg.1, r.calls, Except.ok (r.client, r.state)⟩
    else
      ⟨cfg.2, cfg.1, 0, Except.error (WrapperError.notImplementedUseCase self.typeName)⟩

/- ## Helper lemmas: batch dispatch -/

/-- The try/except block records exactly the spec's per-outcome result:
the parsed body on success, the empty mapping on any caught failure. -/
theorem handleRequest_eq_outcomeResult (o : SendOutcome) (url : String) :
    handleRequest o url = outcomeResult o := by
  cases o <;> rfl

/-- A failing outcome is recorded as the empty mapping. -/
theorem handleRequest_of_isFailure (o : SendOutcome) (url : String)
    (h : o.isFailure = true) : handleRequest o url = emptyMapping := by
  cases o <;> simp_all [handleRequest, postAttempt, SendOutcome.isFailure]

/-- The dispatch loop produces one wire call and one response per request. -/
theorem dispatchLoop_length (url : String) (net : Nat → PostCall → SendOutcome) :
    ∀ (q : List CDSRequest) (k : Nat),
      (dispatchLoop url net k q).1.length = q.length ∧
      (dispatchLoop url net k q).2.length = q.length := by
  intro q
  induction q with
  | nil => intro k; simp [dispatchLoop]
  | cons r rs ih => intro k; simp [dispatchLoop, ih (k + 1)]

/-- Response at relative position `i` of the loop started at `k` is the
handled outcome of the POST for request `i`, at absolute position `k + i`. -/
theorem dispatchLoop_snd_get? (url : String) (net : Nat → PostCall → SendOutcome) :
    ∀ (q : List CDSRequest) (k i : Nat),
      ((dispatchLoop url net k q).2)[i]? =
        (q[i]?).map
          (fun r => handleRequest (net (k + i) ⟨url, model_dump_exclude_none r⟩) url) := by
  intro q
  induction q with
  | nil => intro k i; simp [dispatchLoop]
  | cons r rs ih =>
    intro k i
    cases i with
    | zero => simp [dispatchLoop]
    | succ j =>
      have hk : k + 1 + j = k + (j + 1) := by omega
      simp [dispatchLoop, ih (k + 1) j, hk]

/-- Wire call at relative position `i`: the caller-supplied URL and the
serialisation of request `i`. -/
theorem dispatchLoop_fst_get? (url : String) (net : Nat → PostCall → SendOutcome) :
    ∀ (q : List CDSRequest) (k i : Nat),
      ((dispatchLoop url net k q).1)[i]? =
        (q[i]?).map (fun r => (⟨url, model_dump_exclude_none r⟩ : PostCall)) := by
  intro q
  induction q with
  | nil => intro k i; simp [dispatchLoop]
  | cons r rs ih =>
    intro k i
    cases i with
    | zero => simp [dispatchLoop]
    | succ j => simp [dispatchLoop, ih (k + 1) j]

/-- A pair survives `exclude_none` serialisation iff the request holds the
field with that non-`None` value. -/
theorem mem_dumpedFields_iff (r : CDSRequest) (k : String) (v : Json) :
    (k, v) ∈ dumpedFields r ↔ (k, some v) ∈ r.fields := by
  unfold dumpedFields
  rw [List.mem_filterMap]
  constructor
  · rintro ⟨⟨k', ov⟩, hmem, hmap⟩
    rcases Option.map_eq_some'.mp hmap with ⟨w, how, hpair⟩
    injection hpair with hk hv
    subst hk; subst hv; subst how
    exact hmem
  · intro hmem
    exact ⟨(k, some v), hmem, rfl⟩

/- ## Helper lemmas: queue generation -/

/-- When no exception propagates, `generate_request` appended exactly one
constructed request at the end of the queue. -/
theorem generate_request_queue_of_ok {ω σ δ ρ ε : Type}
    (c : EHRClient ω σ δ ρ ε) (s : σ)
    (h : (generate_request c s).2.2 = none) :
    ∃ req, (generate_request c s).1.request_data = c.request_data ++ [req] := by
  unfold generate_request at *
  cases hg : c.data_generator_func s with
  | error e => simp [hg] at h
  | ok p =>
    cases hc : c.construct_request p.1 c.workflow with
    | error e => simp [hg, hc] at h
    | ok req => exact ⟨req, by simp [hg, hc]⟩

/-- When an exception propagates, `generate_request` left the queue as it
was: the only mutation, the append, sits after both fallible calls. -/
theorem generate_request_queue_of_error {ω σ δ ρ ε : Type}
    (c : EHRClient ω σ δ ρ ε) (s : σ) (e : ε)
    (h : (generate_request c s).2.2 = some e) :
    (generate_request c s).1.request_data = c.request_data := by
  unfold generate_request at *
  cases hg : c.data_generator_func s with
  | error e' => simp [hg]
  | ok p =>
    cases hc : c.construct_request p.1 c.workflow with
    | error e' => simp [hg, hc]
    | ok req => simp [hg, hc] at h

/-- `generate_request` does not change the generator function, the workflow,
or the strategy of the client. -/
theorem generate_request_config_unchanged {ω σ δ ρ ε : Type}
    (c : EHRClient ω σ δ ρ ε) (s : σ) :
    (generate_request c s).1.data_generator_func = c.data_generator_func ∧
    (generate_request c s).1.workflow = c.workflow ∧
    (generate_request c s).1.construct_request = c.construct_request := by
  unfold generate_request
  cases hg : c.data_generator_func s with
  | error e => simp
  | ok p =>
    cases hc : c.construct_request p.1 c.workflow with
    | error e => simp [hc]
    | ok req => simp [hc]

/-- Behaviour of the generation loop: without an exception it ran exactly
`n` generator calls and appended exactly `n` requests; with an exception it
stopped at the failing call, having appended one request per earlier
successful call and none for the failing one. -/
theorem generateLoop_spec {ω σ δ ρ ε : Type} :
    ∀ (n : Nat) (c : EHRClient ω σ δ ρ ε) (s : σ),
      ((generateLoop n c s).error? = none →
        (generateLoop n c s).client.request_data.length =
          c.request_data.length + n ∧
        (generateLoop n c s).calls = n) ∧
      (∀ e, (generateLoop n c s).error? = some e →
        (generateLoop n c s).client.request_data.length + 1 =
          c.request_data.length + (generateLoop n c s).calls ∧
        1 ≤ (generateLoop n c s).calls ∧ (generateLoop n c s).calls ≤ n) := by
  intro n
  induction n with
  | zero => intro c s; simp [generateLoop]
  | succ m ih =>
    intro c s
    rcases hgr : generate_request c s with ⟨c', s', o⟩
    cases o with
    | some e =>
      have hq : c'.request_data = c.request_data := by
        have := generate_request_queue_of_error c s e (by rw [hgr])
        rwa [hgr] at this
      constructor
      · intro hnone; simp [generateLoop, hgr] at hnone
      · intro e' he'
        refine ⟨?_, ?_, ?_⟩ <;> simp [generateLoop, hgr, hq]
    | none =>
      have hq : ∃ req, c'.request_data = c.request_data ++ [req] := by
        have := generate_request_queue_of_ok c s (by rw [hgr])
        rwa [hgr] at this
      rcases hq with ⟨req, hq⟩
      have hlen : c'.request_data.length = c.request_data.length + 1 := by
        simp [hq]
      constructor
      · intro hnone
        simp only [generateLoop, hgr] at hnone ⊢
        rcases (ih c' s').1 hnone with ⟨h1, h2⟩
        constructor
        · rw [h1, hlen]; omega
        · rw [h2]
      · intro e he
        simp only [generateLoop, hgr] at he ⊢
        rcases (ih c' s').2 e he with ⟨h1, h2, h3⟩
        refine ⟨by rw [hlen] at h1; omega, by omega, by omega⟩

/- ## Helper lemmas: data-generator configuration loop -/

/-- The configuration loop attempts `set_workflow` on every attribute, in
order, whatever the individual attempts return. -/
theorem configGenerators_attempts_all {ω ε : Type}
    (setw : String → ω → Except ε Unit) (wf : ω) :
    ∀ (attrs : List String) (k : Nat),
      (configGenerators setw wf k attrs).1 = attrs := by
  intro attrs
  induction attrs with
  | nil => intro k; simp [configGenerators]
  | cons a rest ih => intro k; simp [configGenerators, ih (k + 1)]

/-- Every failing `set_workflow` attempt leaves an error log record naming
the attribute; the loop itself raises nothing. -/
theorem configGenerators_error_logged {ω ε : Type}
    (setw : String → ω → Except ε Unit) (wf : ω) :
    ∀ (attrs : List String) (k : Nat) (attr : String) (e : ε),
      attr ∈ attrs → setw attr wf = Except.error e →
      LogEntry.errorSetWorkflow attr ∈ (configGenerators setw wf k attrs).2 := by
  intro attrs
  induction attrs with
  | nil => intro k attr e hmem _; simp at hmem
  | cons a rest ih =>
    intro k attr e hmem herr
    rcases List.mem_cons.mp hmem with heq | htail
    · subst heq
      simp [configGenerators, herr]
    · have hrec := ih (k + 1) attr e htail herr
      simp [configGenerators, hrec]

/-- The loop warns exactly at the indices `i` with `i > 1`: for a list of
attributes processed from index `k`, the number of
"More than one DataGenerator instances found." records is the count of
positions whose absolute index exceeds 1. -/
theorem configGenerators_warning_count {ω ε : Type}
    (setw : String → ω → Except ε Unit) (wf : ω) :
    ∀ (attrs : List String) (k : Nat),
      ((configGenerators setw wf k attrs).2.count LogEntry.warnMultipleGenerators) =
        ((List.range attrs.length).filter (fun i => decide (k + i > 1))).length := by
  intro attrs
  induction attrs with
  | nil => intro k; simp [configGenerators]
  | cons a rest ih =>
    intro k
    have hrange : List.range (rest.length + 1) =
        0 :: (List.range rest.length).map (· + 1) := List.range_succ_eq_map _
    simp only [configGenerators, List.length_cons, hrange, List.filter_cons,
      List.count_append]
    have hmap : (((List.range rest.length).map (· + 1)).filter
        (fun i => decide (k + i > 1))).length =
        ((List.range rest.length).filter (fun i => decide (k + 1 + i > 1))).length := by
      rw [List.filter_map, List.length_map]
      congr 1
      apply List.filter_congr
      intro i _
      simp [Function.comp]
      omega
    cases hsw : setw a wf with
    | ok u =>
      by_cases hk : k > 1 <;>
        simp [hsw, hk, List.count_cons, hmap, ih (k + 1), Nat.add_comm]
    | error e =>
      by_cases hk : k > 1 <;>
        simp [hsw, hk, List.count_cons, hmap, ih (k + 1), Nat.add_comm]

/-- Once the workflow resolves, the wrapper's log records and attempted
attributes are exactly those of the configuration loop, whatever the
use-case check and the generation loop then do. -/
theorem ehr_wrapper_logs_attempts {ω σ δ ρ ε : Type} (parse : String → Option ω)
    (options : List String) (self : UseCaseSelf ω σ δ ρ ε)
    (workflow : String) (num : Nat) (s : σ) (wf : ω)
    (hp : parse workflow = some wf) :
    (ehr_wrapper parse options self workflow num s).logs =
      (configGenerators self.set_workflow wf 0 self.dataGeneratorAttributes).2 ∧
    (ehr_wrapper parse options self workflow num s).attemptedAttributes =
      (configGenerators self.set_workflow wf 0 self.dataGeneratorAttributes).1 := by
  unfold ehr_wrapper
  rw [hp]
  cases ht : self.typeInUseCaseType
  · simp
  · simp only [if_true]
    cases he : (generateLoop num
        (⟨self.boundFunc, wf, self.construct_request, []⟩ :
          EHRClient ω σ δ ρ ε) s).error? <;> simp [he]

/- ## Claim theorems -/

/-- C1: for every queue of requests and every assignment of per-request
outcomes, `send_request` returns a list whose length equals the queue
length, and whose element at position `i` is the outcome recorded for the
request at position `i`: the parsed JSON body on success, the empty mapping
otherwise. -/
theorem send_request_length_and_positions
    (q : List CDSRequest) (url : String) (net : Nat → PostCall → SendOutcome) :
    (send_request q url net).length = q.length ∧
    ∀ (i : Nat) (r : CDSRequest), q[i]? = some r →
      (send_request q url net)[i]? =
        some (outcomeResult (net i ⟨url, model_dump_exclude_none r⟩)) := by
  constructor
  · exact (dispatchLoop_length url net q 0).2
  · intro i r hir
    unfold send_request
    rw [dispatchLoop_snd_get? url net q 0 i, hir]
    simp [handleRequest_eq_outcomeResult]

/-- Witness for C1: a one-request queue whose POST yields a 500 status is
answered by the empty mapping at position 0. -/
theorem send_request_length_and_positions_witness :
    ([(⟨[("hook", some (Json.str "patient-view")), ("context", none)]⟩ : CDSRequest)][0]? =
      some (⟨[("hook", some (Json.str "patient-view")), ("context", none)]⟩ : CDSRequest)) ∧
    (send_request [⟨[("hook", some (Json.str "patient-view")), ("context", none)]⟩]
        "http://localhost:8000" (fun _ _ => SendOutcome.statusError 500))[0]? =
      some (outcomeResult (SendOutcome.statusError 500)) := by
  refine ⟨rfl, ?_⟩
  exact (send_request_length_and_positions
    [⟨[("hook", some (Json.str "patient-view")), ("context", none)]⟩]
    "http://localhost:8000" (fun _ _ => SendOutcome.statusError 500)).2 0 _ rfl

/-- C2: a request whose dispatch fails (non-2xx status, timeout, or
transport failure) contributes the empty mapping `{}` at its own position,
and the batch still produces one result per queued request — the failure is
caught inside the loop (`send_request` is a total function into `List Json`,
so no caught failure reaches the caller) and the batch never aborts early. -/
theorem send_request_error_isolation
    (q : List CDSRequest) (url : String) (net : Nat → PostCall → SendOutcome)
    (i : Nat) (r : CDSRequest) (hq : q[i]? = some r)
    (hf : (net i ⟨url, model_dump_exclude_none r⟩).isFailure = true) :
    (send_request q url net)[i]? = some emptyMapping ∧
    (send_request q url net).length = q.length := by
  constructor
  · unfold send_request
    rw [dispatchLoop_snd_get? url net q 0 i, hq]
    simp only [Nat.zero_add, Option.map_some']
    rw [handleRequest_of_isFailure _ _ hf]
  · exact (dispatchLoop_length url net q 0).2

/-- Witness for C2: three queued requests where the middle POST returns 500;
position 1 holds `{}` and the output still has three entries. -/
theorem send_request_error_isolation_witness :
    (([⟨[("id", some (Json.num 0))]⟩, ⟨[("id", some (Json.num 1))]⟩,
        ⟨[("id", some (Json.num 2))]⟩] : List CDSRequest)[1]? =
      some ⟨[("id", some (Json.num 1))]⟩) ∧
    ((fun (i : Nat) (_ : PostCall) =>
        if i = 1 then SendOutcome.statusError 500
        else SendOutcome.success (Json.obj [("ok", Json.bool true)])) 1
      ⟨"http://localhost:8000", model_dump_exclude_none ⟨[("id", some (Json.num 1))]⟩⟩).isFailure
      = true ∧
    (send_request
        [⟨[("id", some (Json.num 0))]⟩, ⟨[("id", some (Json.num 1))]⟩,
          ⟨[("id", some (Json.num 2))]⟩] "http://localhost:8000"
        (fun i _ => if i = 1 then SendOutcome.statusError 500
          else SendOutcome.success (Json.obj [("ok", Json.bool true)])))[1]? =
      some emptyMapping ∧
    (send_request
        [⟨[("id", some (Json.num 0))]⟩, ⟨[("id", some (Json.num 1))]⟩,
          ⟨[("id", some (Json.num 2))]⟩] "http://localhost:8000"
        (fun i _ => if i = 1 then SendOutcome.statusError 500
          else SendOutcome.success (Json.obj [("ok", Json.bool true)]))).length = 3 := by
  refine ⟨rfl, rfl, ?_⟩
  exact send_request_error_isolation
    [⟨[("id", some (Json.num 0))]⟩, ⟨[("id", some (Json.num 1))]⟩,
      ⟨[("id", some (Json.num 2))]⟩] "http://localhost:8000"
    (fun i _ => if i = 1 then SendOutcome.statusError 500
      else SendOutcome.success (Json.obj [("ok", Json.bool true)])) 1
    ⟨[("id", some (Json.num 1))]⟩ rfl rfl

/-- C7: the wire call for the queued request at position `i` POSTs to the
caller-supplied URL with the request's `exclude_none` serialisation as JSON
body, and a field survives that serialisation exactly when its value is not
`None`. -/
theorem send_request_wire_contract
    (q : List CDSRequest) (url : String) (net : Nat → PostCall → SendOutcome)
    (i : Nat) (r : CDSRequest) (hq : q[i]? = some r) :
    (wireCalls q url net)[i]? = some ⟨url, Json.obj (dumpedFields r)⟩ ∧
    ∀ (k : String) (v : Json), (k, v) ∈ dumpedFields r ↔ (k, some v) ∈ r.fields := by
  constructor
  · unfold wireCalls
    rw [dispatchLoop_fst_get? url net q 0 i, hq]
    rfl
  · exact mem_dumpedFields_iff r

/-- Witness for C7: a request with one populated and one `None` field is
POSTed to the supplied URL with only the populated field in the body. -/
theorem send_request_wire_contract_witness :
    (([(⟨[("hookInstance", some (Json.str "abc")), ("prefetch", none)]⟩ : CDSRequest)] :
        List CDSRequest)[0]? =
      some ⟨[("hookInstance", some (Json.str "abc")), ("prefetch", none)]⟩) ∧
    (wireCalls [⟨[("hookInstance", some (Json.str "abc")), ("prefetch", none)]⟩]
        "http://cds.example/hook" (fun _ _ => SendOutcome.timeout))[0]? =
      some ⟨"http://cds.example/hook",
        Json.obj (dumpedFields ⟨[("hookInstance", some (Json.str "abc")), ("prefetch", none)]⟩)⟩ ∧
    ∀ (k : String) (v : Json),
      (k, v) ∈ dumpedFields
          (⟨[("hookInstance", some (Json.str "abc")), ("prefetch", none)]⟩ : CDSRequest) ↔
        (k, some v) ∈
          [("hookInstance", some (Json.str "abc")), ("prefetch", (none : Option Json))] := by
  refine ⟨rfl, ?_, ?_⟩
  · exact (send_request_wire_contract
      [⟨[("hookInstance", some (Json.str "abc")), ("prefetch", none)]⟩]
      "http://cds.example/hook" (fun _ _ => SendOutcome.timeout) 0 _ rfl).1
  · exact (send_request_wire_contract
      [⟨[("hookInstance", some (Json.str "abc")), ("prefetch", none)]⟩]
      "http://cds.example/hook" (fun _ _ => SendOutcome.timeout) 0 _ rfl).2

/-- C3: for a valid workflow and a recognised use-case caller, a returned
client's queue has length exactly `num`; and if some generation call raises,
that exception is the wrapper's immediate outcome and the partial queue
(shorter than `num`) is neither retried nor completed. -/
theorem ehr_queue_length_num {ω σ δ ρ ε : Type} (parse : String → Option ω)
    (options : List String) (self : UseCaseSelf ω σ δ ρ ε)
    (workflow : String) (num : Nat) (s : σ) (wf : ω)
    (hp : parse workflow = some wf) (ht : self.typeInUseCaseType = true) :
    (∀ (c : EHRClient ω σ δ ρ ε) (s2 : σ),
      (ehr_wrapper parse options self workflow num s).result = Except.ok (c, s2) →
      c.request_data.length = num) ∧
    (∀ e, (generateLoop num (⟨self.boundFunc, wf, self.construct_request, []⟩ :
        EHRClient ω σ δ ρ ε) s).error? = some e →
      (ehr_wrapper parse options self workflow num s).result =
        Except.error (WrapperError.raised e) ∧
      (generateLoop num (⟨self.boundFunc, wf, self.construct_request, []⟩ :
        EHRClient ω σ δ ρ ε) s).client.request_data.length < num) := by
  have hspec := generateLoop_spec num
    (⟨self.boundFunc, wf, self.construct_request, []⟩ : EHRClient ω σ δ ρ ε) s
  constructor
  · intro c s2 hok
    unfold ehr_wrapper at hok
    rw [hp] at hok
    simp only [ht, if_true] at hok
    cases her : (generateLoop num (⟨self.boundFunc, wf, self.construct_request, []⟩ :
        EHRClient ω σ δ ρ ε) s).error? with
    | some e => rw [her] at hok; simp at hok
    | none =>
      rw [her] at hok
      simp only [Except.ok.injEq, Prod.mk.injEq] at hok
      rcases hok with ⟨hc, _⟩
      rcases hspec.1 her with ⟨h1, _⟩
      rw [← hc]
      simpa using h1
  · intro e he
    constructor
    · unfold ehr_wrapper
      rw [hp]
      simp only [ht, if_true]
      rw [he]
    · rcases hspec.2 e he with ⟨h1, _, h3⟩
      simp only [List.length_nil, Nat.zero_add] at h1
      omega

/-- Witness for C3: with an always-succeeding generator and `num = 2`, the
returned client's queue has exactly two requests. -/
theorem ehr_queue_length_num_witness :
    ((fun (_ : String) => some ()) "patient-view" = some ()) ∧
    ((⟨true, "cds", [], fun _ _ => Except.ok (), fun d _ => Except.ok d,
        fun s => Except.ok (s, s + 1)⟩ :
      UseCaseSelf Unit Nat Nat Nat Unit).typeInUseCaseType = true) ∧
    ∀ (c : EHRClient Unit Nat Nat Nat Unit) (s2 : Nat),
      (ehr_wrapper (fun _ => some ()) ["patient-view"]
          ⟨true, "cds", [], fun _ _ => Except.ok (), fun d _ => Except.ok d,
            fun s => Except.ok (s, s + 1)⟩ "patient-view" 2 0).result =
        Except.ok (c, s2) →
      c.request_data.length = 2 := by
  refine ⟨rfl, rfl, ?_⟩
  exact (ehr_queue_length_num (fun _ => some ()) ["patient-view"]
    ⟨true, "cds", [], fun _ _ => Except.ok (), fun d _ => Except.ok d,
      fun s => Except.ok (s, s + 1)⟩ "patient-view" 2 0 () rfl rfl).1

/-- C4 evaluation: with a valid workflow and exactly two data-generator
attributes, the wrapper emits no "More than one DataGenerator instances
found." warning (the `if i > 1` test over 0-based indices first fires at the
third attribute); with three attributes it emits one warning, not one per
attribute from the second on. -/
theorem ehr_two_generators_no_warning_emitted :
    ((ehr_wrapper (fun _ => some ()) ["patient-view"]
        (⟨true, "cds", ["gen_a", "gen_b"], fun _ _ => Except.ok (),
          fun d _ => Except.ok d, fun s => Except.ok (s, s + 1)⟩ :
          UseCaseSelf Unit Nat Nat Nat Unit)
        "patient-view" 1 0).logs.count LogEntry.warnMultipleGenerators = 0) ∧
    ((ehr_wrapper (fun _ => some ()) ["patient-view"]
        (⟨true, "cds", ["gen_a", "gen_b", "gen_c"], fun _ _ => Except.ok (),
          fun d _ => Except.ok d, fun s => Except.ok (s, s + 1)⟩ :
          UseCaseSelf Unit Nat Nat Nat Unit)
        "patient-view" 1 0).logs.count LogEntry.warnMultipleGenerators = 1) := by
  constructor <;> rfl

/-- C5: an unknown workflow identifier makes the wrapper raise the
`ValueError` listing the valid options at once: no log record is written, no
`set_workflow` is attempted, the generator is never called, and no client or
queue is created. -/
theorem ehr_invalid_workflow_fails_fast {ω σ δ ρ ε : Type}
    (parse : String → Option ω) (options : List String)
    (self : UseCaseSelf ω σ δ ρ ε) (workflow : String) (num : Nat) (s : σ)
    (hp : parse workflow = none) :
    ehr_wrapper parse options self workflow num s =
      ⟨[], [], 0, Except.error (WrapperError.valueErrorInvalidWorkflow options)⟩ := by
  unfold ehr_wrapper
  rw [hp]

/-- Witness for C5: a lookup that recognises no identifier raises the
`ValueError` carrying the option list, with zero generator calls. -/
theorem ehr_invalid_workflow_fails_fast_witness :
    ((fun (_ : String) => (none : Option Unit)) "bad-workflow" = none) ∧
    ehr_wrapper (fun _ => (none : Option Unit)) ["encounter-discharge", "patient-view"]
        (⟨true, "cds", ["gen_a"], fun _ _ => Except.ok (), fun d _ => Except.ok d,
          fun s => Except.ok (s, s + 1)⟩ : UseCaseSelf Unit Nat Nat Nat Unit)
        "bad-workflow" 3 0 =
      ⟨[], [], 0, Except.error (WrapperError.valueErrorInvalidWorkflow
        ["encounter-discharge", "patient-view"])⟩ := by
  refine ⟨rfl, ?_⟩
  exact ehr_invalid_workflow_fails_fast (fun _ => none)
    ["encounter-discharge", "patient-view"]
    ⟨true, "cds", ["gen_a"], fun _ _ => Except.ok (), fun d _ => Except.ok d,
      fun s => Except.ok (s, s + 1)⟩ "bad-workflow" 3 0 rfl

/-- C6: a successful `generate_request` appends exactly one constructed
request at the end of the queue; and in every case the old queue is an
unchanged prefix of the new one — the queue never shrinks and is never
reordered (no removal operation exists in the model: appending is the only
queue mutation). -/
theorem generate_request_appends_exactly_one {ω σ δ ρ ε : Type}
    (c : EHRClient ω σ δ ρ ε) (s : σ) :
    ((generate_request c s).2.2 = none →
      ∃ req, (generate_request c s).1.request_data = c.request_data ++ [req]) ∧
    ∃ t, (generate_request c s).1.request_data = c.request_data ++ t := by
  constructor
  · exact generate_request_queue_of_ok c s
  · cases ho : (generate_request c s).2.2 with
    | none =>
      rcases generate_request_queue_of_ok c s ho with ⟨req, h⟩
      exact ⟨[req], h⟩
    | some e =>
      exact ⟨[], by simp [generate_request_queue_of_error c s e ho]⟩

/-- Witness for C6: a successful call on a client whose queue holds `[7]`
leaves `[7]` as prefix and appends one request. -/
theorem generate_request_appends_exactly_one_witness :
    ((generate_request (⟨fun s => Except.ok (s, s + 1), (), fun d _ => Except.ok (d * 2),
        [7]⟩ : EHRClient Unit Nat Nat Nat Unit) 3).2.2 = none) ∧
    ∃ req, (generate_request (⟨fun s => Except.ok (s, s + 1), (), fun d _ => Except.ok (d * 2),
        [7]⟩ : EHRClient Unit Nat Nat Nat Unit) 3).1.request_data = [7] ++ [req] := by
  refine ⟨rfl, ?_⟩
  exact (generate_request_appends_exactly_one
    ⟨fun s => Except.ok (s, s + 1), (), fun d _ => Except.ok (d * 2), [7]⟩ 3).1 rfl

/-- C8: a caller whose `type` is not in `UseCaseType` makes the wrapper
raise `NotImplementedError` naming that type; no client is returned and the
generator is never invoked. -/
theorem ehr_unrecognised_use_case_fails {ω σ δ ρ ε : Type}
    (parse : String → Option ω) (options : List String)
    (self : UseCaseSelf ω σ δ ρ ε) (workflow : String) (num : Nat) (s : σ)
    (wf : ω) (hp : parse workflow = some wf)
    (ht : self.typeInUseCaseType = false) :
    (ehr_wrapper parse options self workflow num s).result =
      Except.error (WrapperError.notImplementedUseCase self.typeName) ∧
    (ehr_wrapper parse options self workflow num s).generatorCalls = 0 := by
  unfold ehr_wrapper
  rw [hp]
  simp [ht]

/-- Witness for C8: a caller of unrecognised type "oddCase" gets the
`NotImplementedError` and zero generator calls. -/
theorem ehr_unrecognised_use_case_fails_witness :
    ((fun (_ : String) => some ()) "patient-view" = some ()) ∧
    ((⟨false, "oddCase", [], fun _ _ => Except.ok (), fun d _ => Except.ok d,
        fun s => Except.ok (s, s + 1)⟩ :
      UseCaseSelf Unit Nat Nat Nat Unit).typeInUseCaseType = false) ∧
    (ehr_wrapper (fun _ => some ()) ["patient-view"]
        (⟨false, "oddCase", [], fun _ _ => Except.ok (), fun d _ => Except.ok d,
          fun s => Except.ok (s, s + 1)⟩ : UseCaseSelf Unit Nat Nat Nat Unit)
        "patient-view" 2 0).result =
      Except.error (WrapperError.notImplementedUseCase "oddCase") ∧
    (ehr_wrapper (fun _ => some ()) ["patient-view"]
        (⟨false, "oddCase", [], fun _ _ => Except.ok (), fun d _ => Except.ok d,
          fun s => Except.ok (s, s + 1)⟩ : UseCaseSelf Unit Nat Nat Nat Unit)
        "patient-view" 2 0).generatorCalls = 0 := by
  refine ⟨rfl, rfl, ?_, ?_⟩
  · exact (ehr_unrecognised_use_case_fails (fun _ => some ()) ["patient-view"]
      ⟨false, "oddCase", [], fun _ _ => Except.ok (), fun d _ => Except.ok d,
        fun s => Except.ok (s, s + 1)⟩ "patient-view" 2 0 () rfl rfl).1
  · exact (ehr_unrecognised_use_case_fails (fun _ => some ()) ["patient-view"]
      ⟨false, "oddCase", [], fun _ _ => Except.ok (), fun d _ => Except.ok d,
        fun s => Except.ok (s, s + 1)⟩ "patient-view" 2 0 () rfl rfl).2

/-- C9: with a valid workflow, `set_workflow` is attempted on every
data-generator attribute in order, whatever the attempts return; each
failing attempt is caught and leaves an error log record naming the
attribute, and later attributes are still attempted. -/
theorem ehr_generator_config_attempts_all_attributes {ω σ δ ρ ε : Type}
    (parse : String → Option ω) (options : List String)
    (self : UseCaseSelf ω σ δ ρ ε) (workflow : String) (num : Nat) (s : σ)
    (wf : ω) (hp : parse workflow = some wf) :
    (ehr_wrapper parse options self workflow num s).attemptedAttributes =
      self.dataGeneratorAttributes ∧
    ∀ (attr : String) (e : ε), attr ∈ self.dataGeneratorAttributes →
      self.set_workflow attr wf = Except.error e →
      LogEntry.errorSetWorkflow attr ∈
        (ehr_wrapper parse options self workflow num s).logs := by
  rcases ehr_wrapper_logs_attempts parse options self workflow num s wf hp with
    ⟨hlogs, hattrs⟩
  constructor
  · rw [hattrs, configGenerators_attempts_all]
  · intro attr e hmem herr
    rw [hlogs]
    exact configGenerators_error_logged self.set_workflow wf
      self.dataGeneratorAttributes 0 attr e hmem herr

/-- Witness for C9: two attributes where `set_workflow` fails on the first;
both are attempted and the failure is logged. -/
theorem ehr_generator_config_attempts_all_attributes_witness :
    ((fun (_ : String) => some ()) "patient-view" = some ()) ∧
    (ehr_wrapper (fun _ => some ()) ["patient-view"]
        (⟨true, "cds", ["gen_a", "gen_b"],
          fun a _ => if a = "gen_a" then Except.error () else Except.ok (),
          fun d _ => Except.ok d, fun s => Except.ok (s, s + 1)⟩ :
          UseCaseSelf Unit Nat Nat Nat Unit)
        "patient-view" 1 0).attemptedAttributes = ["gen_a", "gen_b"] ∧
    LogEntry.errorSetWorkflow "gen_a" ∈
      (ehr_wrapper (fun _ => some ()) ["patient-view"]
        (⟨true, "cds", ["gen_a", "gen_b"],
          fun a _ => if a = "gen_a" then Except.error () else Except.ok (),
          fun d _ => Except.ok d, fun s => Except.ok (s, s + 1)⟩ :
          UseCaseSelf Unit Nat Nat Nat Unit)
        "patient-view" 1 0).logs := by
  refine ⟨rfl, ?_, ?_⟩
  · exact (ehr_generator_config_attempts_all_attributes (fun _ => some ())
      ["patient-view"]
      ⟨true, "cds", ["gen_a", "gen_b"],
        fun a _ => if a = "gen_a" then Except.error () else Except.ok (),
        fun d _ => Except.ok d, fun s => Except.ok (s, s + 1)⟩
      "patient-view" 1 0 () rfl).1
  · exact (ehr_generator_config_attempts_all_attributes (fun _ => some ())
      ["patient-view"]
      ⟨true, "cds", ["gen_a", "gen_b"],
        fun a _ => if a = "gen_a" then Except.error () else Except.ok (),
        fun d _ => Except.ok d, fun s => Except.ok (s, s + 1)⟩
      "patient-view" 1 0 () rfl).2 "gen_a" () (by simp) (by simp)

/-- C10: if the data-generator function or `construct_request` raises, the
exception propagates and the request queue is exactly as before the call —
no partial entry is appended. -/
theorem generate_request_atomic_on_failure {ω σ δ ρ ε : Type}
    (c : EHRClient ω σ δ ρ ε) (s : σ) (e : ε)
    (h : (generate_request c s).2.2 = some e) :
    (generate_request c s).1.request_data = c.request_data :=
  generate_request_queue_of_error c s e h

/-- Witness for C10: a client whose `construct_request` always raises keeps
its queue `[5]` unchanged, and the exception is the call's outcome. -/
theorem generate_request_atomic_on_failure_witness :
    ((generate_request (⟨fun s => Except.ok (s, s + 1), (),
        fun _ _ => Except.error (), [5]⟩ : EHRClient Unit Nat Nat Nat Unit) 0).2.2 =
      some ()) ∧
    (generate_request (⟨fun s => Except.ok (s, s + 1), (),
        fun _ _ => Except.error (), [5]⟩ : EHRClient Unit Nat Nat Nat Unit) 0).1.request_data =
      [5] := by
  refine ⟨rfl, ?_⟩
  exact generate_request_atomic_on_failure
    ⟨fun s => Except.ok (s, s + 1), (), fun _ _ => Except.error (), [5]⟩ 0 () rfl

end HealthChain
